import Mathlib

/-!
Shallow embedding of the Azul rules-engine sketch (`src/types.rs`) and
verification of the specification's claims about it.

Pure data is embedded directly; the Rust methods that mutate `&mut self`
are embedded in state-passing style: they return the new state of the
receiver together with the `Result` value, and an early `bail!`/`ensure!`
return leaves the receiver exactly as it was.
-/

namespace Azul

/-- The tile colors of `enum Tile` in `src/types.rs`, including the
first-player marker pseudo-tile. -/
inductive Tile
  | Blue
  | Yellow
  | Red
  | Black
  | Teal
  | FirstPlayer
deriving DecidableEq

/-- The player colors of `enum PlayerColor` in `src/types.rs`. -/
inductive PlayerColor
  | White
  | Black
  | Gray
  | Brown
deriving DecidableEq

/-- The order produced by the derived `EnumIter` iteration over
`PlayerColor`: declaration order. -/
def PlayerColor.iter : List PlayerColor :=
  [PlayerColor.White, PlayerColor.Black, PlayerColor.Gray, PlayerColor.Brown]

/-- `const FACTORY_COUNT: [u32; 4] = [3, 5, 7, 9]`. -/
def FACTORY_COUNT : List Nat := [3, 5, 7, 9]

/-- `const OVERFLOW_COST: [u32; 7] = [-1, -1, -2, -2, -2, -3, -3]`; the
declared element values are negative, so they are embedded as integers. -/
def OVERFLOW_COST : List Int := [-1, -1, -2, -2, -2, -3, -3]

/-- `OVERFLOW_CUMULATIVE_COST`: the running sums of `OVERFLOW_COST`
(the Rust `scan` with accumulator starting at 0). -/
def OVERFLOW_CUMULATIVE_COST : List Int :=
  (OVERFLOW_COST.scanl (· + ·) 0).tail

/-- `struct Bag(Vec<Tile>)`. -/
structure Bag where
  tiles : List Tile
deriving DecidableEq

/-- The loop body of `Bag::take`: the Rust code pops from the freshly
created output vector `tiles` (not from `self.0`) and pushes the popped
tile straight back, so each iteration either fails on an empty buffer or
leaves the buffer unchanged. -/
def takeLoop : List Tile → Nat → Except String (List Tile)
  | acc, 0 => Except.ok acc
  | acc, n + 1 =>
    match acc.getLast? with
    | none => Except.error "ran out of tiles"
    | some t => takeLoop (acc.dropLast ++ [t]) n

/-- `Bag::take(&mut self, n)`: runs the loop `n` times over the output
buffer; `self.0` is never touched, so the bag is returned unchanged. -/
def Bag.take (b : Bag) (n : Nat) : Except String (Bag × List Tile) :=
  (takeLoop [] n).map fun ts => (b, ts)

/-- `struct Factory(Vec<Tile>)`. -/
structure Factory where
  tiles : List Tile
deriving DecidableEq

/-- Modelled from the spec: `Factory::new` is called by `Game::new` but is
not defined under `src/`; per the spec a factory display starts empty and
is only filled at round start. -/
def Factory.new : Factory := ⟨[]⟩

/-- `Factory::fill`: replaces the factory contents with `bag.take(4)`,
propagating the error of a failed take and threading the bag state. -/
def Factory.fill (f : Factory) (bag : Bag) : Except String (Factory × Bag) :=
  match bag.take 4 with
  | Except.ok (bag2, ts) => Except.ok (⟨ts⟩, bag2)
  | Except.error e => Except.error e

/-- `struct Wall`. Modelled from the spec for the empty-cell notion:
`Wall::default` is called by `Player::new` but not defined under `src/`,
and the declared array type `[[Tile; 5]; 5]` has no way to mark a cell
empty; per the spec a wall is a 5×5 grid whose cells are either empty or
hold one tile, and all cells start empty. -/
structure Wall where
  cells : List (List (Option Tile))
deriving DecidableEq

/-- Modelled from the spec: the default wall is the 5×5 grid of empty
cells. -/
def Wall.default : Wall := ⟨List.replicate 5 (List.replicate 5 none)⟩

/-- `struct PatternLines(Vec<Vec<Tile>>)`. -/
structure PatternLines where
  lines : List (List Tile)
deriving DecidableEq

/-- Modelled from the spec: `PatternLines::default` is called by
`Player::new` but not defined under `src/`; per the spec a board has five
pattern lines, all initially empty. -/
def PatternLines.default : PatternLines := ⟨List.replicate 5 []⟩

/-- `struct FloorLine(Vec<Tile>)`. -/
structure FloorLine where
  tiles : List Tile
deriving DecidableEq

/-- Modelled from the spec: `FloorLine::default` is called by
`Player::new` but not defined under `src/`; the floor line starts empty. -/
def FloorLine.default : FloorLine := ⟨[]⟩

/-- `FloorLine::add(&mut self, tile)`: `ensure!` that the current length
is below `OVERFLOW_CUMULATIVE_COST.len()` (= 7), then push; a failed
`ensure!` returns early with an error and the floor line unchanged. -/
def FloorLine.add (fl : FloorLine) (t : Tile) : FloorLine × Except String Unit :=
  if fl.tiles.length < OVERFLOW_CUMULATIVE_COST.length then
    (⟨fl.tiles ++ [t]⟩, Except.ok ())
  else
    (fl, Except.error "overflow exceeded maximum of 7 tiles")

/-- `FloorLine::points`: indexes `OVERFLOW_CUMULATIVE_COST` at
`min(self.0.len(), OVERFLOW_CUMULATIVE_COST.len() - 1)`; the index is
always in bounds, so the `getD` default is never used. -/
def FloorLine.points (fl : FloorLine) : Int :=
  OVERFLOW_CUMULATIVE_COST.getD
    (min fl.tiles.length (OVERFLOW_CUMULATIVE_COST.length - 1)) 0

/-- `struct Player` (its `color` field's declared type `Color` is the
evident sketch typo for `PlayerColor`). -/
structure Player where
  color : PlayerColor
  points : Nat
  wall : Wall
  pattern_lines : PatternLines
  floor_line : FloorLine
deriving DecidableEq

/-- `Player::new(color)`: note `points: 5` in the source. -/
def Player.new (color : PlayerColor) : Player :=
  ⟨color, 5, Wall.default, PatternLines.default, FloorLine.default⟩

/-- Modelled from the spec: `Bag::new` is called by `Game::new` but not
defined under `src/`; per the spec the full inventory is 20 tiles of each
of the 5 playable colors (100 tiles, no first-player marker in the bag). -/
def Bag.new : Bag :=
  ⟨[Tile.Blue, Tile.Yellow, Tile.Red, Tile.Black, Tile.Teal].flatMap
    fun t => List.replicate 20 t⟩

/-- `struct Game`. The source `Game` has no lid (discard pool) field. -/
structure Game where
  bag : Bag
  players : List Player
  factories : List Factory
  center : List Tile
deriving DecidableEq

/-- `Game::new(players)`: `ensure!(players <= 4)` only (no lower bound),
then `FACTORY_COUNT[players]` — a zero-based index by the player count,
which panics out of bounds for `players = 4`; the panic is embedded as an
error value. Players are the first `players` colors of the `EnumIter`
order, factories start as `Factory::new`, the center starts empty. -/
def Game.new (players : Nat) : Except String Game :=
  if players ≤ 4 then
    match FACTORY_COUNT.get? players with
    | some c =>
      Except.ok
        ⟨Bag.new, (PlayerColor.iter.take players).map Player.new,
          List.replicate c Factory.new, []⟩
    | none => Except.error "index out of bounds"
  else
    Except.error "maximum of 4 players"

/-- The iteration of `Game::deal` over the factories: each factory is
refilled from the bag in order; a failed `fill` stops the iteration with
the remaining factories and the bag as they were at that point. -/
def dealLoop : List Factory → Bag → List Factory × Bag × Except String Unit
  | [], bag => ([], bag, Except.ok ())
  | f :: fs, bag =>
    match Factory.fill f bag with
    | Except.error e => (f :: fs, bag, Except.error e)
    | Except.ok (f2, bag2) =>
      match dealLoop fs bag2 with
      | (fs2, bag3, r) => (f2 :: fs2, bag3, r)

/-- `Game::deal(&mut self)`: refill every factory from the bag, threading
the mutable game state and propagating any fill error. -/
def Game.deal (g : Game) : Game × Except String Unit :=
  let r := dealLoop g.factories g.bag
  (⟨r.2.1, g.players, r.1, g.center⟩, r.2.2)

/-- Number of tiles a factory holds. -/
def Factory.tileCount (f : Factory) : Nat := f.tiles.length

/-- Number of tiles a board holds: floor line, pattern lines and occupied
wall cells. -/
def Player.tileCount (p : Player) : Nat :=
  p.floor_line.tiles.length + (p.pattern_lines.lines.map List.length).sum +
    (p.wall.cells.map fun row => (row.filterMap id).length).sum

/-- Total number of tiles a game state holds across the bag, the
factories, the center and the player boards (the source `Game` has no lid
field, so nothing else can hold tiles). -/
def Game.tileCount (g : Game) : Nat :=
  g.bag.tiles.length + (g.factories.map Factory.tileCount).sum +
    g.center.length + (g.players.map Player.tileCount).sum

/-- Number of tiles of one particular color a board holds. -/
def Player.colorCount (p : Player) (t : Tile) : Nat :=
  p.floor_line.tiles.count t +
    (p.pattern_lines.lines.map fun l => l.count t).sum +
    (p.wall.cells.map fun row => (row.filterMap id).count t).sum

/-- Number of tiles of one particular color a game state holds. -/
def Game.colorCount (g : Game) (t : Tile) : Nat :=
  g.bag.tiles.count t + (g.factories.map fun f => f.tiles.count t).sum +
    g.center.count t + (g.players.map fun p => p.colorCount t).sum

/-- The game states reachable through the operations the source defines:
`Game::new` and `Game::deal` (the state after a failed `deal` is the
partially mutated receiver, which `deal` returns). -/
inductive Reachable : Game → Prop
  | init : ∀ p g, Game.new p = Except.ok g → Reachable g
  | deal : ∀ g, Reachable g → Reachable (Game.deal g).1

/-! Helper lemmas. -/

lemma dealLoop_id (fs : List Factory) (b : Bag) :
    (dealLoop fs b).1 = fs ∧ (dealLoop fs b).2.1 = b := by
  cases fs with
  | nil => exact ⟨rfl, rfl⟩
  | cons f fs => exact ⟨rfl, rfl⟩

lemma deal_id (g : Game) : (Game.deal g).1 = g := by
  obtain ⟨h1, h2⟩ := dealLoop_id g.factories g.bag
  show (⟨(dealLoop g.factories g.bag).2.1, g.players,
      (dealLoop g.factories g.bag).1, g.center⟩ : Game) = g
  rw [h1, h2]

lemma new_ok (p : Nat) (g : Game) (h : Game.new p = Except.ok g) :
    ∃ c, FACTORY_COUNT.get? p = some c ∧
      g = ⟨Bag.new, (PlayerColor.iter.take p).map Player.new,
        List.replicate c Factory.new, []⟩ := by
  unfold Game.new at h
  split at h
  · split at h
    · rename_i c hc
      injection h with h
      exact ⟨c, hc, h.symm⟩
    · cases h
  · cases h

lemma players_tileCount_zero (p : Nat) :
    (((PlayerColor.iter.take p).map Player.new).map Player.tileCount).sum = 0 := by
  apply List.sum_eq_zero
  intro x hx
  rw [List.map_map] at hx
  obtain ⟨col, hcol, hxx⟩ := List.mem_map.mp hx
  rw [← hxx]
  rfl

lemma factories_tileCount_zero (c : Nat) :
    ((List.replicate c Factory.new).map Factory.tileCount).sum = 0 := by
  rw [List.map_replicate]
  simp [List.sum_replicate, Factory.tileCount, Factory.new]

lemma bag_new_length : Bag.new.tiles.length = 100 := by decide

lemma new_tileCount (p : Nat) (g : Game) (h : Game.new p = Except.ok g) :
    Game.tileCount g = 100 := by
  obtain ⟨c, hc, rfl⟩ := new_ok p g h
  show Bag.new.tiles.length +
      ((List.replicate c Factory.new).map Factory.tileCount).sum +
      ([] : List Tile).length +
      (((PlayerColor.iter.take p).map Player.new).map Player.tileCount).sum = 100
  rw [bag_new_length, factories_tileCount_zero, players_tileCount_zero]
  rfl

lemma players_colorCount_zero (p : Nat) (t : Tile) :
    (((PlayerColor.iter.take p).map Player.new).map fun q => q.colorCount t).sum = 0 := by
  apply List.sum_eq_zero
  intro x hx
  rw [List.map_map] at hx
  obtain ⟨col, hcol, hxx⟩ := List.mem_map.mp hx
  rw [← hxx]
  rfl

lemma factories_colorCount_zero (c : Nat) (t : Tile) :
    ((List.replicate c Factory.new).map fun f => f.tiles.count t).sum = 0 := by
  rw [List.map_replicate]
  simp [List.sum_replicate, Factory.new]

lemma bag_new_colorCount (t : Tile) (ht : t ≠ Tile.FirstPlayer) :
    Bag.new.tiles.count t = 20 := by
  cases t
  case FirstPlayer => exact absurd rfl ht
  all_goals decide

lemma new_colorCount (p : Nat) (g : Game) (t : Tile) (h : Game.new p = Except.ok g)
    (ht : t ≠ Tile.FirstPlayer) : Game.colorCount g t = 20 := by
  obtain ⟨c, hc, rfl⟩ := new_ok p g h
  show Bag.new.tiles.count t +
      ((List.replicate c Factory.new).map fun f => f.tiles.count t).sum +
      ([] : List Tile).count t +
      (((PlayerColor.iter.take p).map Player.new).map fun q => q.colorCount t).sum = 20
  rw [bag_new_colorCount t ht, factories_colorCount_zero, players_colorCount_zero]
  rfl

/-! Claim theorems. -/

/-- Claim C1: every reachable game state (reachable through the source's
operations `Game::new` and `Game::deal`) holds exactly 100 colored tiles
in total across the bag, the factories, the center and the player boards,
and exactly 20 of each of the 5 playable colors; no operation destroys or
fabricates a tile. -/
theorem c1_tile_conservation (g : Game) (h : Reachable g) :
    Game.tileCount g = 100 ∧
      ∀ t : Tile, t ≠ Tile.FirstPlayer → Game.colorCount g t = 20 := by
  induction h with
  | init p g hg => exact ⟨new_tileCount p g hg, fun t ht => new_colorCount p g t hg ht⟩
  | deal g hg ih => rw [deal_id]; exact ih

/-- Concrete reachable state used by the conservation witness: the game
produced by `Game::new 2`. -/
def gameTwo : Game := (Game.new 2).toOption.getD ⟨⟨[]⟩, [], [], []⟩

/-- Witness for C1: conservation evaluated on the concrete reachable state
`gameTwo`. -/
theorem c1_tile_conservation_witness :
    Game.tileCount gameTwo = 100 ∧ Game.colorCount gameTwo Tile.Blue = 20 := by
  have h := c1_tile_conservation gameTwo (Reachable.init 2 gameTwo rfl)
  exact ⟨h.1, h.2 Tile.Blue (by decide)⟩

/-- Claim C2 is false of the code: `Bag::take` pops from its freshly
created output buffer rather than from the supply, so taking 1 tile from
a one-tile bag errors out instead of returning the tile and shrinking the
supply by 1. -/
theorem c2_take_pops_output_buffer :
    Bag.take ⟨[Tile.Blue]⟩ 1 = Except.error "ran out of tiles" := rfl

/-- Claim C3 is false of the code: a short draw is an error; taking 4
tiles from an exhausted (empty) bag returns the ran-out-of-tiles error
instead of succeeding with fewer tiles. -/
theorem c3_short_draw_errors :
    Bag.take ⟨[]⟩ 4 = Except.error "ran out of tiles" := rfl

/-- Claim C4 is false of the code: `FloorLine::points` indexes the
cumulative table at `min(k, 6)` instead of by the number of filled slots,
returning -1 for an empty floor line (the claim says 0) and -11 for 5
tiles (the claim says -8). -/
theorem c4_points_off_by_one :
    FloorLine.points ⟨[]⟩ = -1 ∧
      FloorLine.points ⟨List.replicate 5 Tile.Blue⟩ = -11 := by
  exact ⟨by decide, by decide⟩

/-- Counterexample to claim C5 as stated: on a floor line already holding
7 tiles, `FloorLine::add` returns an error rather than succeeding. -/
theorem c5_full_floor_add_errors :
    (FloorLine.add ⟨List.replicate 7 Tile.Blue⟩ Tile.Blue).2 =
      Except.error "overflow exceeded maximum of 7 tiles" := rfl

/-- Claim C5 as amended: `FloorLine::add` pushes the tile when the
current length is below 7, and on a floor line already holding 7 tiles it
returns an overflow error, leaving the floor line unchanged; no tile is
discarded to any lid (the code has none). -/
theorem c5_add_behavior (fl : FloorLine) (t : Tile) :
    (fl.tiles.length < 7 →
      FloorLine.add fl t = (⟨fl.tiles ++ [t]⟩, Except.ok ())) ∧
    (7 ≤ fl.tiles.length →
      FloorLine.add fl t =
        (fl, Except.error "overflow exceeded maximum of 7 tiles")) := by
  have hlen : OVERFLOW_CUMULATIVE_COST.length = 7 := by decide
  unfold FloorLine.add
  rw [hlen]
  constructor
  · intro h
    rw [if_pos h]
  · intro h
    rw [if_neg (by omega)]

/-- Witness for the amended C5: both branches evaluated on concrete floor
lines. -/
theorem c5_add_behavior_witness :
    FloorLine.add ⟨[]⟩ Tile.Blue = (⟨[Tile.Blue]⟩, Except.ok ()) ∧
    FloorLine.add ⟨List.replicate 7 Tile.Red⟩ Tile.Red =
      (⟨List.replicate 7 Tile.Red⟩,
        Except.error "overflow exceeded maximum of 7 tiles") :=
  ⟨(c5_add_behavior ⟨[]⟩ Tile.Blue).1 (by decide),
   (c5_add_behavior ⟨List.replicate 7 Tile.Red⟩ Tile.Red).2 (by decide)⟩

/-- Counterexample to claim C6 as stated: `Game::new 0` is accepted (the
source checks only `players <= 4`), and `Game::new 4` does not return a
game — the factory-table lookup is out of bounds. -/
theorem c6_zero_players_accepted :
    (Game.new 0).isOk = true ∧
      Game.new 4 = Except.error "index out of bounds" := ⟨rfl, rfl⟩

/-- Claim C6 as amended: `Game::new` rejects exactly player counts
greater than 4 with the maximum-of-4 error; player counts 0 through 3 are
accepted and return a game; player count 4 passes the validation but
aborts on the out-of-bounds factory-table index. -/
theorem c6_new_game_behavior (p : Nat) :
    (p ≤ 3 → (Game.new p).isOk = true) ∧
    (p = 4 → Game.new p = Except.error "index out of bounds") ∧
    (4 < p → Game.new p = Except.error "maximum of 4 players") := by
  refine ⟨?_, ?_, ?_⟩
  · intro h
    interval_cases p <;> rfl
  · intro h
    subst h
    rfl
  · intro h
    unfold Game.new
    rw [if_neg (by omega)]

/-- Witness for the amended C6: all three branches evaluated at concrete
player counts. -/
theorem c6_new_game_behavior_witness :
    (Game.new 2).isOk = true ∧
      Game.new 4 = Except.error "index out of bounds" ∧
      Game.new 7 = Except.error "maximum of 4 players" :=
  ⟨(c6_new_game_behavior 2).1 (by decide), (c6_new_game_behavior 4).2.1 rfl,
   (c6_new_game_behavior 7).2.2 (by decide)⟩

/-- Claim C7 is false of the code: `Player::new` initializes the player's
points to 5, not 0. -/
theorem c7_initial_points_five :
    (Player.new PlayerColor.White).points = 5 := rfl

/-- Claim C8 is false of the code: `Game::new` indexes `FACTORY_COUNT`
zero-based by the player count itself, so 4 players is out of bounds (the
lookup the code's own `ensure!` admits) and 1 player gets 5 factories,
not 3. -/
theorem c8_factory_table_indexing :
    FACTORY_COUNT.get? 4 = none ∧
      ((Game.new 1).toOption.map fun g => g.factories.length) = some 5 :=
  ⟨rfl, rfl⟩

/-- Claim C9: the operations that return player-facing errors leave the
state they operate on unchanged — a failed `FloorLine::add` bails before
pushing, so the floor line is exactly as before, and a failed `Game::new`
produces no game at all. -/
theorem c9_error_atomicity (fl : FloorLine) (t : Tile) (p : Nat)
    (e1 e2 : String) :
    ((FloorLine.add fl t).2 = Except.error e1 → (FloorLine.add fl t).1 = fl) ∧
    (Game.new p = Except.error e2 → (Game.new p).toOption = none) := by
  constructor
  · unfold FloorLine.add
    split
    · intro h
      exact absurd h (by simp)
    · intro h
      rfl
  · intro h
    rw [h]
    rfl

/-- Witness for C9: atomicity evaluated on a full floor line and an
invalid player count. -/
theorem c9_error_atomicity_witness :
    (FloorLine.add ⟨List.replicate 7 Tile.Blue⟩ Tile.Teal).1 =
      (⟨List.replicate 7 Tile.Blue⟩ : FloorLine) ∧
    (Game.new 9).toOption = none :=
  ⟨(c9_error_atomicity ⟨List.replicate 7 Tile.Blue⟩ Tile.Teal 9
      "overflow exceeded maximum of 7 tiles" "maximum of 4 players").1 rfl,
   (c9_error_atomicity ⟨List.replicate 7 Tile.Blue⟩ Tile.Teal 9
      "overflow exceeded maximum of 7 tiles" "maximum of 4 players").2 rfl⟩

/-- Claim C10: `Bag::take 0` always succeeds with an empty result and an
unchanged bag, for every bag including the empty one. -/
theorem c10_take_zero (b : Bag) : Bag.take b 0 = Except.ok (b, []) := rfl

end Azul
